import Mathlib

/-!
Shallow embedding of the core of the Marketing Spend Audit & Revenue
Reconciliation program (`src/audit_utils.py`).

Modelling conventions:
* A pandas DataFrame is a `List` of row structures; row order is the frame's
  row order.
* Dates are `Int` (a calendar day); a funnel timestamp is a day together with
  a time-of-day, so that truncation (`.dt.date`) keeps exactly the day.
* Numeric columns are `ℚ` (exact arithmetic standing for the floats of the
  source).  A value of a pandas Series division that is not a finite number
  (NaN from a missing index label, NaN/±inf from a zero denominator) is
  modelled as `none : Option ℚ`.
* `groupby(k)[v].sum()` is `groupSums`: one `(key, sum)` pair per distinct
  key of the frame.  Series division aligns on the union of the two indexes,
  as pandas does.
* The mutation `df_funnel['date'] = ...` performed by `calculate_cac` is
  modelled by state passing: the function also returns the updated funnel
  table, and the report pipeline threads that table.
* The free-text `details` column of an anomaly row is not modelled; no
  verified property depends on it.
-/

namespace MarketingAudit

/-- A calendar date (day number). -/
abbrev Date := Int

/-- A funnel-event timestamp: a day plus a time of day.  `pandas`'
`.dt.date` truncation keeps only the `day` component. -/
structure Timestamp where
  day : Date
  timeOfDay : Nat
deriving DecidableEq

/-- One row of the Spend table (`marketing_spend.csv`). -/
structure SpendRow where
  date : Date
  campaign : String
  spend : ℚ
deriving DecidableEq

/-- One row of the Marketing Revenue table (`revenue_marketing.csv`). -/
structure MktRow where
  date : Date
  campaign : String
  user_id : String
  revenue : ℚ
deriving DecidableEq

/-- One row of the Finance Revenue table (`revenue_finance.csv`): no
campaign column. -/
structure FinRow where
  date : Date
  revenue : ℚ
deriving DecidableEq

/-- One row of the Funnel Event table (`funnel_events.csv`).  The `date`
field models the derived `date` column that `calculate_cac` writes into the
frame: `none` before it has been written. -/
structure FunnelRow where
  timestamp : Timestamp
  user_id : String
  event_type : String
  date : Option Date
deriving DecidableEq

/-- Association-list lookup by key (first match), mirroring indexing a
pandas Series by label. -/
def lookupQ {κ α : Type} [DecidableEq κ] : List (κ × α) → κ → Option α
  | [], _ => none
  | (k, v) :: l, k' => if k' = k then some v else lookupQ l k'

/-- Sum of `val` over the rows of `rows` whose `key` is `k`
(the group sum of a pandas `groupby`; `0` when the group is absent). -/
def sumBy {ρ κ : Type} [DecidableEq κ] (rows : List ρ) (key : ρ → κ) (val : ρ → ℚ) (k : κ) : ℚ :=
  ((rows.filter (fun r => key r = k)).map val).sum

/-- The aggregation `rows.groupby(key)[val].sum()`: one `(key, group sum)` pair per distinct
key occurring in `rows`. -/
def groupSums {ρ κ : Type} [DecidableEq κ] (rows : List ρ) (key : ρ → κ) (val : ρ → ℚ) :
    List (κ × ℚ) :=
  ((rows.map key).dedup).map (fun k => (k, sumBy rows key val k))

/-- Division of two aligned Series entries: `none` when either label is
missing from its Series, or when the denominator is zero (pandas would give
NaN resp. NaN/±inf, i.e. a non-finite value). -/
def divOpt : Option ℚ → Option ℚ → Option ℚ
  | some a, some b => if b = 0 then none else some (a / b)
  | _, _ => none

/-- pandas Series division: align the two Series on the union of their
indexes and divide entrywise. -/
def seriesDiv {κ : Type} [DecidableEq κ] (num den : List (κ × ℚ)) : List (κ × Option ℚ) :=
  ((num.map Prod.fst ++ den.map Prod.fst).dedup).map
    (fun k => (k, divOpt (lookupQ num k) (lookupQ den k)))

/-- The inner join `df_mkt.merge(df_fin, on='date')`: one pair per
(marketing row, finance row) with equal dates, in left-frame row order. -/
def mergeOnDate (df_mkt : List MktRow) (df_fin : List FinRow) : List (MktRow × FinRow) :=
  df_mkt.flatMap (fun m => (df_fin.filter (fun f => f.date = m.date)).map (fun f => (m, f)))

/-- The function `calculate_roas`: marketing-view and finance-view ROAS by campaign.
Finance revenue is attributed to campaigns by the date join with the
marketing table; both views divide by the same spend-by-campaign Series. -/
def calculate_roas (df_mkt : List MktRow) (df_fin : List FinRow) (df_spend : List SpendRow) :
    List (String × Option ℚ) × List (String × Option ℚ) :=
  let spend_by_channel := groupSums df_spend (fun r => r.campaign) (fun r => r.spend)
  let mkt_revenue_by_channel := groupSums df_mkt (fun r => r.campaign) (fun r => r.revenue)
  let fin_revenue_by_channel :=
    groupSums (mergeOnDate df_mkt df_fin) (fun p => p.1.campaign) (fun p => p.2.revenue)
  (seriesDiv mkt_revenue_by_channel spend_by_channel,
   seriesDiv fin_revenue_by_channel spend_by_channel)

/-- One row of the CAC result table. -/
structure CacRow where
  campaign : String
  cac : ℚ
  customers : Nat
deriving DecidableEq

/-- The assignment `df_funnel['date'] = pd.to_datetime(df_funnel['timestamp'].dt.date)`
applied to one row: the timestamp truncated to its day is written into the
`date` column, the other columns are untouched. -/
def setDateColumn (r : FunnelRow) : FunnelRow :=
  { r with date := some r.timestamp.day }

/-- The frame `daily_campaigns`: the distinct (date, campaign) pairs of the Spend
table. -/
def dailyCampaigns (df_spend : List SpendRow) : List (Date × String) :=
  (df_spend.map (fun r => (r.date, r.campaign))).dedup

/-- The frame `events_with_campaign`: the inner join of the funnel table (after the
`date`-column assignment) with `daily_campaigns` on date. -/
def eventsWithCampaign (df_spend : List SpendRow) (df_funnel : List FunnelRow) :
    List (FunnelRow × String) :=
  (df_funnel.map setDateColumn).flatMap (fun e =>
    ((dailyCampaigns df_spend).filter (fun dc => e.date = some dc.1)).map
      (fun dc => (e, dc.2)))

/-- The joined rows whose event is a `checkout`. -/
def checkoutRows (df_spend : List SpendRow) (df_funnel : List FunnelRow) :
    List (FunnelRow × String) :=
  (eventsWithCampaign df_spend df_funnel).filter (fun p => p.1.event_type = "checkout")

/-- The frame `acquisitions`: the distinct `user_id` count of the checkout rows,
grouped by campaign. -/
def acquisitions (df_spend : List SpendRow) (df_funnel : List FunnelRow) :
    List (String × Nat) :=
  (((checkoutRows df_spend df_funnel).map (fun p => p.2)).dedup).map (fun c =>
    (c, (((checkoutRows df_spend df_funnel).filter (fun p => p.2 = c)).map
      (fun p => p.1.user_id)).dedup.length))

/-- The function `calculate_cac`: links funnel events to campaigns by date, counts
distinct users with a `checkout` event per campaign, and divides campaign
spend by that count (inner merge with spend-by-campaign, in acquisitions
order).  The second component is the funnel table after the in-place
`date`-column assignment. -/
def calculate_cac (df_spend : List SpendRow) (df_funnel : List FunnelRow) :
    List CacRow × List FunnelRow :=
  ((acquisitions df_spend df_funnel).flatMap (fun a =>
    match lookupQ (groupSums df_spend (fun r => r.campaign) (fun r => r.spend)) a.1 with
    | some s => [⟨a.1, s / (a.2 : ℚ), a.2⟩]
    | none => []),
   df_funnel.map setDateColumn)

/-- The anomaly classification of a detected row. -/
inductive AnomalyType
  | RevenueInflation
  | MissingInvoice
  | OutlierSpend
deriving DecidableEq

/-- Anomaly severity. -/
inductive Severity
  | High
  | Critical
deriving DecidableEq

/-- One detected anomaly record (the free-text `details` column is not
modelled). -/
structure Anomaly where
  date : Date
  anomaly_type : AnomalyType
  severity : Severity
deriving DecidableEq

/-- Marketing revenue aggregated by date (`df_mkt.groupby('date')['revenue'].sum()`,
`0` for a date with no marketing rows — the `fillna(0)` of the outer merge). -/
def mktRevByDate (df_mkt : List MktRow) (d : Date) : ℚ :=
  sumBy df_mkt (fun r => r.date) (fun r => r.revenue) d

/-- Finance revenue aggregated by date, `0` for an absent date. -/
def finRevByDate (df_fin : List FinRow) (d : Date) : ℚ :=
  sumBy df_fin (fun r => r.date) (fun r => r.revenue) d

/-- The index of the outer merge of the two date aggregations: every date
occurring in either revenue table, once. -/
def datesUnion (df_mkt : List MktRow) (df_fin : List FinRow) : List Date :=
  (df_mkt.map (fun r => r.date) ++ df_fin.map (fun r => r.date)).dedup

/-- The frame `revenue_comp`: the outer merge of the per-date revenue aggregations
with `fillna(0)`: `(date, mkt_revenue, fin_revenue)`. -/
def revenueComp (df_mkt : List MktRow) (df_fin : List FinRow) : List (Date × ℚ × ℚ) :=
  (datesUnion df_mkt df_fin).map (fun d => (d, mktRevByDate df_mkt d, finRevByDate df_fin d))

/-- The value `(mkt_revenue - fin_revenue) / fin_revenue` of a `revenue_comp` row. -/
def rowVariance (t : Date × ℚ × ℚ) : ℚ := (t.2.1 - t.2.2) / t.2.2

/-- Rule 1 of `detect_misreporting`: Revenue Inflation rows. -/
def inflationAnomalies (df_mkt : List MktRow) (df_fin : List FinRow) : List Anomaly :=
  (((revenueComp df_mkt df_fin).filter (fun t => 0 < t.2.2)).filter
      (fun t => 1/5 < rowVariance t)).map
    (fun t => ⟨t.1, .RevenueInflation, if 1/2 < rowVariance t then .Critical else .High⟩)

/-- Rule 2 of `detect_misreporting`: Missing Invoice rows. -/
def missingInvoiceAnomalies (df_mkt : List MktRow) (df_fin : List FinRow) : List Anomaly :=
  ((revenueComp df_mkt df_fin).filter (fun t => t.2.2 = 0 ∧ 0 < t.2.1)).map
    (fun t => ⟨t.1, .MissingInvoice, .High⟩)

/-- The mean `df['spend'].mean()` of a numeric series. -/
def seriesMean (xs : List ℚ) : ℚ := xs.sum / (xs.length : ℚ)

/-- The quantity `df['spend'].std() ** 2`: the pandas default sample variance
(`ddof = 1`), dividing the sum of squared deviations by `n - 1`.
(For `n ≤ 1` the `ℚ`-division by zero yields `0`; pandas yields NaN there,
and in both models no row is flagged.) -/
def sampleVar (xs : List ℚ) : ℚ :=
  ((xs.map (fun x => (x - seriesMean xs)^2)).sum) / ((xs.length : ℚ) - 1)

/-- The outlier test `spend > mean + 2 * std` of the source, in exact
arithmetic: since `std = √(sampleVar) ≥ 0`, the comparison is equivalent to
`spend - mean > 0 ∧ (spend - mean)² > 4 * sampleVar` (see
`outlierCheck_iff_real`). -/
def outlierCheck (xs : List ℚ) (x : ℚ) : Bool :=
  decide (0 < x - seriesMean xs) && decide (4 * sampleVar xs < (x - seriesMean xs)^2)

/-- Rule 3 of `detect_misreporting`: Outlier Spend rows. -/
def outlierAnomalies (df_spend : List SpendRow) : List Anomaly :=
  (df_spend.filter (fun r => outlierCheck (df_spend.map (fun s => s.spend)) r.spend)).map
    (fun r => ⟨r.date, .OutlierSpend, .High⟩)

/-- The function `detect_misreporting`: the three rule families evaluated independently
and concatenated in source order. -/
def detect_misreporting (df_mkt : List MktRow) (df_fin : List FinRow)
    (df_spend : List SpendRow) : List Anomaly :=
  inflationAnomalies df_mkt df_fin ++ missingInvoiceAnomalies df_mkt df_fin ++
    outlierAnomalies df_spend

/-- Modelled from the spec: the claim's population-statistics outlier
threshold (`ddof = 0`), for comparison with the code's sample statistics. -/
def popVar (xs : List ℚ) : ℚ :=
  ((xs.map (fun x => (x - seriesMean xs)^2)).sum) / (xs.length : ℚ)

/-- Modelled from the spec: "spend strictly exceeds
mean(spend) + 2·stddev(spend), where mean and stddev are population
statistics". -/
def popOutlierSpec (xs : List ℚ) (x : ℚ) : Prop :=
  ((seriesMean xs : ℚ) : ℝ) + 2 * Real.sqrt ((popVar xs : ℚ) : ℝ) < ((x : ℚ) : ℝ)

/-- The relative variance of a date's aggregated revenues. -/
def dateVariance (df_mkt : List MktRow) (df_fin : List FinRow) (d : Date) : ℚ :=
  (mktRevByDate df_mkt d - finRevByDate df_fin d) / finRevByDate df_fin d

/-- Total spend of a campaign over the Spend table. -/
def spendTotal (df_spend : List SpendRow) (c : String) : ℚ :=
  sumBy df_spend (fun r => r.campaign) (fun r => r.spend) c

/-- Total marketing revenue of a campaign over the Marketing Revenue table. -/
def mktRevenueTotal (df_mkt : List MktRow) (c : String) : ℚ :=
  sumBy df_mkt (fun r => r.campaign) (fun r => r.revenue) c

/-- Sum of the finance revenue over all row pairs of the date join of the
Marketing Revenue and Finance Revenue tables whose marketing row has the
given campaign. -/
def finJoinedRevenue (df_mkt : List MktRow) (df_fin : List FinRow) (c : String) : ℚ :=
  sumBy (mergeOnDate df_mkt df_fin) (fun p => p.1.campaign) (fun p => p.2.revenue) c

/-- The four loaded tables that the report pipeline works on. -/
structure Tables where
  df_mkt : List MktRow
  df_fin : List FinRow
  df_spend : List SpendRow
  df_funnel : List FunnelRow
deriving DecidableEq

/-- The executive summary of the report: four scalars.  The overall finance
ROAS is `none` when total spend is zero (a non-finite float in the
source). -/
structure ExecSummary where
  total_spend : ℚ
  total_finance_revenue : ℚ
  overall_finance_roas : Option ℚ
  total_anomalies_detected : Nat
deriving DecidableEq

/-- The reconciliation report structure assembled by
`generate_reconciliation_report`. -/
structure Report where
  executive_summary : ExecSummary
  roas_marketing : List (String × Option ℚ)
  roas_finance : List (String × Option ℚ)
  cac_by_channel : List CacRow
  detected_anomalies : List Anomaly
deriving DecidableEq

/-- The calculation body of `generate_reconciliation_report` on loaded
tables: runs the metric calculator and anomaly detector, computes the four
executive scalars, and returns the report together with the tables as they
stand afterwards (`calculate_cac` has written the funnel `date` column in
place). -/
def runReport (t : Tables) : Report × Tables :=
  let roas := calculate_roas t.df_mkt t.df_fin t.df_spend
  let cacPair := calculate_cac t.df_spend t.df_funnel
  let anomalies := detect_misreporting t.df_mkt t.df_fin t.df_spend
  let total_spend := (t.df_spend.map (fun r => r.spend)).sum
  let total_fin_revenue := (t.df_fin.map (fun r => r.revenue)).sum
  (⟨⟨total_spend, total_fin_revenue,
      if total_spend = 0 then none else some (total_fin_revenue / total_spend),
      anomalies.length⟩,
    roas.1, roas.2, cacPair.1, anomalies⟩,
   ⟨t.df_mkt, t.df_fin, t.df_spend, cacPair.2⟩)

/-- The function `generate_reconciliation_report`, with the loading step modelled as an
`Except` argument (`Except.error` stands for any fault raised while
loading).  `none` models the empty dictionary returned by the
`except` clause; in the typed embedding the calculation functions are total,
so loading is the only fault source. -/
def generate_reconciliation_report (loaded : Except String Tables) : Option Report :=
  match loaded with
  | .error _ => none
  | .ok t => some (runReport t).1

/-! ### Generic lemmas about the table operations -/

theorem lookupQ_graph {κ α : Type} [DecidableEq κ] (ks : List κ) (f : κ → α) (k : κ)
    (h : k ∈ ks) : lookupQ (ks.map (fun x => (x, f x))) k = some (f k) := by
  induction ks with
  | nil => cases h
  | cons a l ih =>
    simp only [List.map_cons, lookupQ]
    by_cases hk : k = a
    · subst hk; simp
    · simp only [if_neg hk]
      rcases List.mem_cons.mp h with h' | h'
      · exact absurd h' hk
      · exact ih h'

theorem lookupQ_graph_some {κ α : Type} [DecidableEq κ] {ks : List κ} {f : κ → α} {k : κ}
    {v : α} (h : lookupQ (ks.map (fun x => (x, f x))) k = some v) : v = f k ∧ k ∈ ks := by
  induction ks with
  | nil => simp [lookupQ] at h
  | cons a l ih =>
    simp only [List.map_cons, lookupQ] at h
    by_cases hk : k = a
    · subst hk
      rw [if_pos rfl] at h
      exact ⟨(Option.some.injEq _ _ ▸ h).symm, List.mem_cons_self _ _⟩
    · simp only [if_neg hk] at h
      exact ⟨(ih h).1, List.mem_cons_of_mem _ (ih h).2⟩

theorem groupSums_keys {ρ κ : Type} [DecidableEq κ] (rows : List ρ) (key : ρ → κ)
    (val : ρ → ℚ) : (groupSums rows key val).map Prod.fst = (rows.map key).dedup := by
  simp [groupSums, List.map_map, Function.comp_def]

theorem lookupQ_groupSums {ρ κ : Type} [DecidableEq κ] {rows : List ρ} {key : ρ → κ}
    {val : ρ → ℚ} {k : κ} (h : k ∈ rows.map key) :
    lookupQ (groupSums rows key val) k = some (sumBy rows key val k) :=
  lookupQ_graph _ _ _ (List.mem_dedup.mpr h)

theorem lookupQ_seriesDiv {κ : Type} [DecidableEq κ] {num den : List (κ × ℚ)} {k : κ}
    (h : k ∈ num.map Prod.fst ∨ k ∈ den.map Prod.fst) :
    lookupQ (seriesDiv num den) k = some (divOpt (lookupQ num k) (lookupQ den k)) :=
  lookupQ_graph _ _ _ (List.mem_dedup.mpr (List.mem_append.mpr h))

theorem lookupQ_seriesDiv_some {κ : Type} [DecidableEq κ] {num den : List (κ × ℚ)} {k : κ}
    {v : Option ℚ} (h : lookupQ (seriesDiv num den) k = some v) :
    v = divOpt (lookupQ num k) (lookupQ den k) :=
  (lookupQ_graph_some h).1

/-- A nonzero group sum means the group is inhabited. -/
theorem sumBy_ne_zero {ρ κ : Type} [DecidableEq κ] {rows : List ρ} {key : ρ → κ}
    {val : ρ → ℚ} {k : κ} (h : sumBy rows key val k ≠ 0) : ∃ r ∈ rows, key r = k := by
  by_contra hc
  push_neg at hc
  apply h
  have hfil : rows.filter (fun r => decide (key r = k)) = [] := by
    rw [List.filter_eq_nil_iff]
    intro a ha
    simp only [decide_eq_true_eq]
    exact hc a ha
  simp [sumBy, hfil]

/-! ### Lemmas about the anomaly detector -/

theorem mktRevByDate_ne_zero_mem {df_mkt : List MktRow} (df_fin : List FinRow) {d : Date}
    (h : mktRevByDate df_mkt d ≠ 0) : d ∈ datesUnion df_mkt df_fin := by
  obtain ⟨r, hr, hrd⟩ := sumBy_ne_zero h
  exact List.mem_dedup.mpr (List.mem_append.mpr (Or.inl (hrd ▸ List.mem_map_of_mem _ hr)))

theorem finRevByDate_ne_zero_mem (df_mkt : List MktRow) {df_fin : List FinRow} {d : Date}
    (h : finRevByDate df_fin d ≠ 0) : d ∈ datesUnion df_mkt df_fin := by
  obtain ⟨r, hr, hrd⟩ := sumBy_ne_zero h
  exact List.mem_dedup.mpr (List.mem_append.mpr (Or.inr (hrd ▸ List.mem_map_of_mem _ hr)))

theorem mem_inflationAnomalies {df_mkt : List MktRow} {df_fin : List FinRow} {a : Anomaly} :
    a ∈ inflationAnomalies df_mkt df_fin ↔
      ∃ d ∈ datesUnion df_mkt df_fin, 0 < finRevByDate df_fin d ∧
        1/5 < dateVariance df_mkt df_fin d ∧
        a = ⟨d, .RevenueInflation,
              if 1/2 < dateVariance df_mkt df_fin d then .Critical else .High⟩ := by
  simp only [inflationAnomalies, revenueComp, List.mem_map, List.mem_filter,
    decide_eq_true_eq]
  constructor
  · rintro ⟨t, ⟨⟨⟨d, hd, rfl⟩, hfin⟩, hvar⟩, rfl⟩
    exact ⟨d, hd, hfin, hvar, rfl⟩
  · rintro ⟨d, hd, hfin, hvar, rfl⟩
    exact ⟨(d, mktRevByDate df_mkt d, finRevByDate df_fin d),
      ⟨⟨⟨d, hd, rfl⟩, hfin⟩, hvar⟩, rfl⟩

theorem mem_missingInvoiceAnomalies {df_mkt : List MktRow} {df_fin : List FinRow}
    {a : Anomaly} :
    a ∈ missingInvoiceAnomalies df_mkt df_fin ↔
      ∃ d ∈ datesUnion df_mkt df_fin, finRevByDate df_fin d = 0 ∧
        0 < mktRevByDate df_mkt d ∧ a = ⟨d, .MissingInvoice, .High⟩ := by
  simp only [missingInvoiceAnomalies, revenueComp, List.mem_map, List.mem_filter,
    decide_eq_true_eq]
  constructor
  · rintro ⟨t, ⟨⟨d, hd, rfl⟩, hfin, hmkt⟩, rfl⟩
    exact ⟨d, hd, hfin, hmkt, rfl⟩
  · rintro ⟨d, hd, hfin, hmkt, rfl⟩
    exact ⟨(d, mktRevByDate df_mkt d, finRevByDate df_fin d), ⟨⟨d, hd, rfl⟩, hfin, hmkt⟩, rfl⟩

theorem mem_outlierAnomalies {df_spend : List SpendRow} {a : Anomaly} :
    a ∈ outlierAnomalies df_spend ↔
      ∃ r ∈ df_spend, outlierCheck (df_spend.map (fun s => s.spend)) r.spend = true ∧
        a = ⟨r.date, .OutlierSpend, .High⟩ := by
  simp only [outlierAnomalies, List.mem_map, List.mem_filter]
  constructor
  · rintro ⟨r, ⟨hr, hchk⟩, rfl⟩
    exact ⟨r, hr, hchk, rfl⟩
  · rintro ⟨r, hr, hchk, rfl⟩
    exact ⟨r, ⟨hr, hchk⟩, rfl⟩

theorem mem_detect {df_mkt : List MktRow} {df_fin : List FinRow} {df_spend : List SpendRow}
    {a : Anomaly} :
    a ∈ detect_misreporting df_mkt df_fin df_spend ↔
      a ∈ inflationAnomalies df_mkt df_fin ∨ a ∈ missingInvoiceAnomalies df_mkt df_fin ∨
        a ∈ outlierAnomalies df_spend := by
  simp [detect_misreporting]

theorem inflation_type {df_mkt : List MktRow} {df_fin : List FinRow} {a : Anomaly}
    (h : a ∈ inflationAnomalies df_mkt df_fin) : a.anomaly_type = .RevenueInflation := by
  obtain ⟨d, _, _, _, rfl⟩ := mem_inflationAnomalies.mp h
  rfl

theorem missing_type {df_mkt : List MktRow} {df_fin : List FinRow} {a : Anomaly}
    (h : a ∈ missingInvoiceAnomalies df_mkt df_fin) : a.anomaly_type = .MissingInvoice := by
  obtain ⟨d, _, _, _, rfl⟩ := mem_missingInvoiceAnomalies.mp h
  rfl

theorem outlier_type {df_spend : List SpendRow} {a : Anomaly}
    (h : a ∈ outlierAnomalies df_spend) : a.anomaly_type = .OutlierSpend := by
  obtain ⟨r, _, _, rfl⟩ := mem_outlierAnomalies.mp h
  rfl

theorem detect_outlier_of_type {df_mkt : List MktRow} {df_fin : List FinRow}
    {df_spend : List SpendRow} {a : Anomaly}
    (ha : a ∈ detect_misreporting df_mkt df_fin df_spend)
    (ht : a.anomaly_type = .OutlierSpend) : a ∈ outlierAnomalies df_spend := by
  rcases mem_detect.mp ha with h | h | h
  · rw [inflation_type h] at ht; exact AnomalyType.noConfusion ht
  · rw [missing_type h] at ht; exact AnomalyType.noConfusion ht
  · exact h

theorem detect_missing_of_type {df_mkt : List MktRow} {df_fin : List FinRow}
    {df_spend : List SpendRow} {a : Anomaly}
    (ha : a ∈ detect_misreporting df_mkt df_fin df_spend)
    (ht : a.anomaly_type = .MissingInvoice) : a ∈ missingInvoiceAnomalies df_mkt df_fin := by
  rcases mem_detect.mp ha with h | h | h
  · rw [inflation_type h] at ht; exact AnomalyType.noConfusion ht
  · exact h
  · rw [outlier_type h] at ht; exact AnomalyType.noConfusion ht

theorem detect_inflation_of_type {df_mkt : List MktRow} {df_fin : List FinRow}
    {df_spend : List SpendRow} {a : Anomaly}
    (ha : a ∈ detect_misreporting df_mkt df_fin df_spend)
    (ht : a.anomaly_type = .RevenueInflation) : a ∈ inflationAnomalies df_mkt df_fin := by
  rcases mem_detect.mp ha with h | h | h
  · exact h
  · rw [missing_type h] at ht; exact AnomalyType.noConfusion ht
  · rw [outlier_type h] at ht; exact AnomalyType.noConfusion ht

/-! ### The outlier test in terms of the real square root -/

theorem lt_of_mean_two_sqrt (m v x : ℝ) (hv : 0 ≤ v) :
    m + 2 * Real.sqrt v < x ↔ (0 < x - m ∧ 4 * v < (x - m)^2) := by
  have hs : Real.sqrt v ^ 2 = v := Real.sq_sqrt hv
  have hnn : 0 ≤ Real.sqrt v := Real.sqrt_nonneg v
  constructor
  · intro h
    have hpos : 0 < x - m := by nlinarith
    exact ⟨hpos, by nlinarith⟩
  · rintro ⟨hpos, hsq⟩
    nlinarith [sq_nonneg (x - m - 2 * Real.sqrt v), sq_nonneg (x - m + 2 * Real.sqrt v)]

theorem sampleVar_nonneg (xs : List ℚ) : 0 ≤ sampleVar xs := by
  match xs with
  | [] => norm_num [sampleVar, seriesMean]
  | [a] => norm_num [sampleVar, seriesMean]
  | a :: b :: l =>
    apply div_nonneg
    · apply List.sum_nonneg
      intro x hx
      obtain ⟨y, _, rfl⟩ := List.mem_map.mp hx
      positivity
    · have : (0:ℚ) ≤ (l.length : ℚ) := Nat.cast_nonneg _
      simp only [List.length_cons]
      push_cast
      linarith

/-- Faithfulness of `outlierCheck`: the exact-arithmetic test agrees with
the source's floating-point formula `spend > mean + 2 * std`, where
`std = √(sampleVar)`. -/
theorem outlierCheck_iff_real (xs : List ℚ) (x : ℚ) :
    outlierCheck xs x = true ↔
      ((seriesMean xs : ℚ) : ℝ) + 2 * Real.sqrt ((sampleVar xs : ℚ) : ℝ) < ((x : ℚ) : ℝ) := by
  have hv : (0:ℝ) ≤ ((sampleVar xs : ℚ) : ℝ) := by exact_mod_cast sampleVar_nonneg xs
  rw [lt_of_mean_two_sqrt _ _ _ hv]
  simp only [outlierCheck, Bool.and_eq_true, decide_eq_true_eq]
  constructor
  · rintro ⟨h1, h2⟩
    exact ⟨by exact_mod_cast h1, by exact_mod_cast h2⟩
  · rintro ⟨h1, h2⟩
    exact ⟨by exact_mod_cast h1, by exact_mod_cast h2⟩

/-! ### Claim C1 -/

/-- C1, counterexample: the claim says a spend row is flagged exactly when
it exceeds the population-statistics threshold.  For the spend series
`[0, 0, 0, 0, 40, 100]` the 100-row exceeds the population threshold
(mean 70/3 ≈ 23.3, population std ≈ 37.3, threshold ≈ 97.9 < 100), yet
`detect_misreporting` — which uses the pandas sample standard deviation
(`ddof = 1`, threshold ≈ 105) — flags nothing. -/
theorem outlierSpend_population_counterexample :
    popOutlierSpec (([⟨0, "A", 0⟩, ⟨1, "A", 0⟩, ⟨2, "A", 0⟩, ⟨3, "A", 0⟩, ⟨4, "A", 40⟩,
        ⟨5, "A", 100⟩] : List SpendRow).map (fun s => s.spend)) 100 ∧
      detect_misreporting [] []
        [⟨0, "A", 0⟩, ⟨1, "A", 0⟩, ⟨2, "A", 0⟩, ⟨3, "A", 0⟩, ⟨4, "A", 40⟩, ⟨5, "A", 100⟩] =
        [] := by
  constructor
  · have hm : seriesMean (([⟨0, "A", 0⟩, ⟨1, "A", 0⟩, ⟨2, "A", 0⟩, ⟨3, "A", 0⟩, ⟨4, "A", 40⟩,
        ⟨5, "A", 100⟩] : List SpendRow).map (fun s => s.spend)) = 70/3 := by
      norm_num [seriesMean]
    have hv : popVar (([⟨0, "A", 0⟩, ⟨1, "A", 0⟩, ⟨2, "A", 0⟩, ⟨3, "A", 0⟩, ⟨4, "A", 40⟩,
        ⟨5, "A", 100⟩] : List SpendRow).map (fun s => s.spend)) = 12500/9 := by
      norm_num [popVar, seriesMean]
    rw [popOutlierSpec, hm, hv]
    have h1 : Real.sqrt (((12500/9 : ℚ) : ℝ)) < 115/3 := by
      rw [show (((12500/9 : ℚ)) : ℝ) = (12500/9 : ℝ) by norm_num]
      exact (Real.sqrt_lt' (by norm_num)).mpr (by norm_num)
    push_cast
    nlinarith [h1]
  · norm_num [detect_misreporting, inflationAnomalies, missingInvoiceAnomalies,
      outlierAnomalies, revenueComp, datesUnion, outlierCheck, sampleVar, seriesMean,
      List.filter]

/-- C1 (amended): `detect_misreporting` flags a spend row as an Outlier
Spend anomaly (severity always High) exactly when that row's spend strictly
exceeds `mean(spend) + 2·stddev(spend)` where the standard deviation is the
pandas *sample* standard deviation (`ddof = 1`), computed over all rows of
the spend table; for the spend series `[100, 100, 100, 100, 1000]` the
1000-row is still not flagged. -/
theorem outlierSpend_flag_iff_sample_threshold :
    (∀ (df_mkt : List MktRow) (df_fin : List FinRow) (df_spend : List SpendRow) (d : Date),
      ((∃ a ∈ detect_misreporting df_mkt df_fin df_spend,
          a.anomaly_type = AnomalyType.OutlierSpend ∧ a.date = d) ↔
        (∃ r ∈ df_spend, r.date = d ∧
          outlierCheck (df_spend.map (fun s => s.spend)) r.spend = true)) ∧
      (∀ a ∈ detect_misreporting df_mkt df_fin df_spend,
        a.anomaly_type = AnomalyType.OutlierSpend → a.severity = Severity.High)) ∧
    detect_misreporting [] []
      [⟨0, "A", 100⟩, ⟨1, "A", 100⟩, ⟨2, "A", 100⟩, ⟨3, "A", 100⟩, ⟨4, "A", 1000⟩] = [] := by
  constructor
  · intro df_mkt df_fin df_spend d
    constructor
    · constructor
      · rintro ⟨a, ha, htype, hdate⟩
        obtain ⟨r, hr, hchk, rfl⟩ :=
          mem_outlierAnomalies.mp (detect_outlier_of_type ha htype)
        exact ⟨r, hr, hdate, hchk⟩
      · rintro ⟨r, hr, hrd, hchk⟩
        refine ⟨⟨r.date, .OutlierSpend, .High⟩,
          mem_detect.mpr (Or.inr (Or.inr (mem_outlierAnomalies.mpr ⟨r, hr, hchk, rfl⟩))),
          rfl, hrd⟩
    · intro a ha htype
      obtain ⟨r, _, _, rfl⟩ := mem_outlierAnomalies.mp (detect_outlier_of_type ha htype)
      rfl
  · norm_num [detect_misreporting, inflationAnomalies, missingInvoiceAnomalies,
      outlierAnomalies, revenueComp, datesUnion, outlierCheck, sampleVar, seriesMean,
      List.filter]

/-- C1, witness: on a concrete spend table whose 70-row exceeds the sample
threshold, the amended theorem produces an Outlier Spend anomaly. -/
theorem outlierSpend_flag_iff_sample_threshold_witness :
    ∃ a ∈ detect_misreporting [] []
      [⟨0, "A", 0⟩, ⟨1, "A", 0⟩, ⟨2, "A", 0⟩, ⟨3, "A", 0⟩, ⟨4, "A", 0⟩, ⟨5, "A", 0⟩,
        ⟨6, "A", 70⟩],
      a.anomaly_type = AnomalyType.OutlierSpend ∧ a.date = 6 :=
  (outlierSpend_flag_iff_sample_threshold.1 [] []
    [⟨0, "A", 0⟩, ⟨1, "A", 0⟩, ⟨2, "A", 0⟩, ⟨3, "A", 0⟩, ⟨4, "A", 0⟩, ⟨5, "A", 0⟩,
      ⟨6, "A", 70⟩] 6).1.mpr
    ⟨⟨6, "A", 70⟩, by norm_num, rfl, by norm_num [outlierCheck, sampleVar, seriesMean]⟩

/-! ### Claim C3 -/

/-- C3: `detect_misreporting` emits a Missing Invoice anomaly (severity
always High) for a date exactly when the per-date-aggregated finance
revenue is `0` (absent dates count as `0`) and the aggregated marketing
revenue is positive; a Missing Invoice and a Revenue Inflation anomaly
never both occur for the same date. -/
theorem missingInvoice_iff_fin_zero_mkt_pos :
    ∀ (df_mkt : List MktRow) (df_fin : List FinRow) (df_spend : List SpendRow) (d : Date),
      ((∃ a ∈ detect_misreporting df_mkt df_fin df_spend,
          a.anomaly_type = AnomalyType.MissingInvoice ∧ a.date = d) ↔
        (finRevByDate df_fin d = 0 ∧ 0 < mktRevByDate df_mkt d)) ∧
      (∀ a ∈ detect_misreporting df_mkt df_fin df_spend,
        a.anomaly_type = AnomalyType.MissingInvoice → a.severity = Severity.High) ∧
      ¬((∃ a ∈ detect_misreporting df_mkt df_fin df_spend,
            a.anomaly_type = AnomalyType.MissingInvoice ∧ a.date = d) ∧
        (∃ a ∈ detect_misreporting df_mkt df_fin df_spend,
            a.anomaly_type = AnomalyType.RevenueInflation ∧ a.date = d)) := by
  intro df_mkt df_fin df_spend d
  have hiff : (∃ a ∈ detect_misreporting df_mkt df_fin df_spend,
      a.anomaly_type = AnomalyType.MissingInvoice ∧ a.date = d) ↔
      (finRevByDate df_fin d = 0 ∧ 0 < mktRevByDate df_mkt d) := by
    constructor
    · rintro ⟨a, ha, ht, hdate⟩
      obtain ⟨d', hd', hfin, hmkt, rfl⟩ :=
        mem_missingInvoiceAnomalies.mp (detect_missing_of_type ha ht)
      exact ⟨hdate ▸ hfin, hdate ▸ hmkt⟩
    · rintro ⟨hfin, hmkt⟩
      have hd : d ∈ datesUnion df_mkt df_fin :=
        mktRevByDate_ne_zero_mem df_fin (ne_of_gt hmkt)
      exact ⟨⟨d, .MissingInvoice, .High⟩,
        mem_detect.mpr (Or.inr (Or.inl
          (mem_missingInvoiceAnomalies.mpr ⟨d, hd, hfin, hmkt, rfl⟩))), rfl, rfl⟩
  refine ⟨hiff, ?_, ?_⟩
  · intro a ha ht
    obtain ⟨d', _, _, _, rfl⟩ :=
      mem_missingInvoiceAnomalies.mp (detect_missing_of_type ha ht)
    rfl
  · rintro ⟨hm, a, ha, ht, hdate⟩
    obtain ⟨hfin0, -⟩ := hiff.mp hm
    obtain ⟨d', _, hfinpos, _, rfl⟩ :=
      mem_inflationAnomalies.mp (detect_inflation_of_type ha ht)
    rw [show d' = d from hdate] at hfinpos
    exact absurd hfin0 (ne_of_gt hfinpos)

/-- C3, witness: a date with marketing revenue 50 and no finance row yields
a Missing Invoice anomaly. -/
theorem missingInvoice_iff_fin_zero_mkt_pos_witness :
    ∃ a ∈ detect_misreporting [⟨0, "A", "U1", 50⟩] [] [],
      a.anomaly_type = AnomalyType.MissingInvoice ∧ a.date = 0 :=
  (missingInvoice_iff_fin_zero_mkt_pos [⟨0, "A", "U1", 50⟩] [] [] 0).1.mpr
    ⟨by norm_num [finRevByDate, sumBy], by norm_num [mktRevByDate, sumBy]⟩

/-! ### Claim C4 -/

/-- C4: `detect_misreporting` emits a Revenue Inflation anomaly for a date
exactly when the date's aggregated finance revenue is positive and the
relative variance `(mkt − fin)/fin` exceeds `1/5`; its severity is Critical
exactly when the variance exceeds `1/2` (High otherwise). -/
theorem revenueInflation_iff_variance :
    ∀ (df_mkt : List MktRow) (df_fin : List FinRow) (df_spend : List SpendRow) (d : Date),
      ((∃ a ∈ detect_misreporting df_mkt df_fin df_spend,
          a.anomaly_type = AnomalyType.RevenueInflation ∧ a.date = d) ↔
        (0 < finRevByDate df_fin d ∧ 1/5 < dateVariance df_mkt df_fin d)) ∧
      (∀ a ∈ detect_misreporting df_mkt df_fin df_spend,
        a.anomaly_type = AnomalyType.RevenueInflation →
          (a.severity = Severity.Critical ↔ 1/2 < dateVariance df_mkt df_fin a.date)) := by
  intro df_mkt df_fin df_spend d
  constructor
  · constructor
    · rintro ⟨a, ha, ht, hdate⟩
      obtain ⟨d', hd', hfin, hvar, rfl⟩ :=
        mem_inflationAnomalies.mp (detect_inflation_of_type ha ht)
      exact ⟨hdate ▸ hfin, hdate ▸ hvar⟩
    · rintro ⟨hfin, hvar⟩
      have hd : d ∈ datesUnion df_mkt df_fin :=
        finRevByDate_ne_zero_mem df_mkt (ne_of_gt hfin)
      exact ⟨⟨d, .RevenueInflation,
          if 1/2 < dateVariance df_mkt df_fin d then .Critical else .High⟩,
        mem_detect.mpr (Or.inl (mem_inflationAnomalies.mpr ⟨d, hd, hfin, hvar, rfl⟩)),
        rfl, rfl⟩
  · intro a ha ht
    obtain ⟨d', _, _, _, rfl⟩ := mem_inflationAnomalies.mp (detect_inflation_of_type ha ht)
    by_cases h : 1/2 < dateVariance df_mkt df_fin d' <;> simp [h]

/-- C4, witness: marketing 500 vs finance 200 on one date (variance 1.5)
yields a Revenue Inflation anomaly. -/
theorem revenueInflation_iff_variance_witness :
    ∃ a ∈ detect_misreporting [⟨0, "A", "U1", 500⟩] [⟨0, 200⟩] [],
      a.anomaly_type = AnomalyType.RevenueInflation ∧ a.date = 0 :=
  (revenueInflation_iff_variance [⟨0, "A", "U1", 500⟩] [⟨0, 200⟩] [] 0).1.mpr
    ⟨by norm_num [finRevByDate, sumBy],
     by norm_num [dateVariance, mktRevByDate, finRevByDate, sumBy]⟩

/-! ### Lemmas about the ROAS calculator -/

theorem calculate_roas_fst (df_mkt : List MktRow) (df_fin : List FinRow)
    (df_spend : List SpendRow) :
    (calculate_roas df_mkt df_fin df_spend).1 =
      seriesDiv (groupSums df_mkt (fun r => r.campaign) (fun r => r.revenue))
        (groupSums df_spend (fun r => r.campaign) (fun r => r.spend)) := rfl

theorem calculate_roas_snd (df_mkt : List MktRow) (df_fin : List FinRow)
    (df_spend : List SpendRow) :
    (calculate_roas df_mkt df_fin df_spend).2 =
      seriesDiv
        (groupSums (mergeOnDate df_mkt df_fin) (fun p => p.1.campaign)
          (fun p => p.2.revenue))
        (groupSums df_spend (fun r => r.campaign) (fun r => r.spend)) := rfl

theorem lookupQ_groupSums_some {ρ κ : Type} [DecidableEq κ] {rows : List ρ} {key : ρ → κ}
    {val : ρ → ℚ} {k : κ} {v : ℚ} (h : lookupQ (groupSums rows key val) k = some v) :
    v = sumBy rows key val k :=
  (lookupQ_graph_some h).1

theorem divOpt_eq_some {x y : Option ℚ} {v : ℚ} (h : divOpt x y = some v) :
    ∃ a b, x = some a ∧ y = some b ∧ b ≠ 0 ∧ v = a / b := by
  rcases x with _ | a
  · simp [divOpt] at h
  · rcases y with _ | b
    · simp [divOpt] at h
    · by_cases hb : b = 0
      · simp [divOpt, hb] at h
      · rw [divOpt, if_neg hb] at h
        exact ⟨a, b, rfl, rfl, hb, (Option.some.injEq _ _ ▸ h).symm⟩

/-! ### Claim C7 -/

/-- C7, counterexample: for the input with Spend `[(date 0, "A", 100)]` and
an empty Marketing Revenue table, campaign `"A"` is present in Spend with
nonzero total spend, the claimed value `sum(mkt revenue)/sum(spend)` is
`0`, but the entry of the returned marketing-ROAS table is the non-finite
marker `none` (a pandas NaN from the missing numerator label), not `0`. -/
theorem roas_marketing_total_counterexample :
    spendTotal [⟨0, "A", 100⟩] "A" ≠ 0 ∧
    lookupQ (calculate_roas [] [] [⟨0, "A", 100⟩]).1 "A" = some none ∧
    lookupQ (calculate_roas [] [] [⟨0, "A", 100⟩]).1 "A" ≠
      some (some (mktRevenueTotal [] "A" / spendTotal [⟨0, "A", 100⟩] "A")) := by
  refine ⟨by norm_num [spendTotal, sumBy], ?_, ?_⟩ <;>
      norm_num [calculate_roas, seriesDiv, groupSums, sumBy, lookupQ, divOpt, mergeOnDate]
  exact fun h => Option.noConfusion h

/-- C7 (amended): for all campaigns present in the Spend table with nonzero
total spend *and appearing in the Marketing Revenue table*, the
marketing-view ROAS equals the campaign's total marketing revenue divided
by its total spend. -/
theorem roas_marketing_lookup_eq :
    ∀ (df_mkt : List MktRow) (df_fin : List FinRow) (df_spend : List SpendRow) (c : String),
      (∃ r ∈ df_mkt, r.campaign = c) → spendTotal df_spend c ≠ 0 →
      lookupQ (calculate_roas df_mkt df_fin df_spend).1 c =
        some (some (mktRevenueTotal df_mkt c / spendTotal df_spend c)) := by
  intro df_mkt df_fin df_spend c hc hs
  obtain ⟨r, hr, hrc⟩ := hc
  have hcm : c ∈ df_mkt.map (fun r => r.campaign) := List.mem_map.mpr ⟨r, hr, hrc⟩
  obtain ⟨rs, hrs, hrsc⟩ := sumBy_ne_zero hs
  have hcs : c ∈ df_spend.map (fun r => r.campaign) := List.mem_map.mpr ⟨rs, hrs, hrsc⟩
  have hnum : c ∈ (groupSums df_mkt (fun r => r.campaign) (fun r => r.revenue)).map
      Prod.fst := by
    rw [groupSums_keys]; exact List.mem_dedup.mpr hcm
  rw [calculate_roas_fst, lookupQ_seriesDiv (Or.inl hnum), lookupQ_groupSums hcm,
    lookupQ_groupSums hcs]
  rw [spendTotal] at hs
  simp [divOpt, hs, mktRevenueTotal, spendTotal]

/-- C7, witness: the scenario Spend `[(0, A, 100)]`, Marketing Revenue
`[(0, A, U1, 500)]` gives marketing ROAS 5 for campaign A. -/
theorem roas_marketing_lookup_eq_witness :
    lookupQ (calculate_roas [⟨0, "A", "U1", 500⟩] [⟨0, 200⟩] [⟨0, "A", 100⟩]).1 "A" =
      some (some (mktRevenueTotal [⟨0, "A", "U1", 500⟩] "A" /
        spendTotal [⟨0, "A", 100⟩] "A")) :=
  roas_marketing_lookup_eq [⟨0, "A", "U1", 500⟩] [⟨0, 200⟩] [⟨0, "A", 100⟩] "A"
    ⟨⟨0, "A", "U1", 500⟩, by norm_num, rfl⟩ (by norm_num [spendTotal, sumBy])

/-! ### Claim C2 -/

/-- C2, counterexample: with Spend `[(date 0, "A", 100)]` and an empty
Marketing Revenue table, campaign `"A"` appears in the returned finance-ROAS
table, the claimed value (sum of finance revenue over the campaign's join
pairs, divided by total spend) is `0/100 = 0`, but the table entry is the
non-finite marker `none` (a pandas NaN), not `0`. -/
theorem roas_finance_total_counterexample :
    spendTotal [⟨0, "A", 100⟩] "A" ≠ 0 ∧
    lookupQ (calculate_roas [] [] [⟨0, "A", 100⟩]).2 "A" = some none ∧
    lookupQ (calculate_roas [] [] [⟨0, "A", 100⟩]).2 "A" ≠
      some (some (finJoinedRevenue [] [] "A" / spendTotal [⟨0, "A", 100⟩] "A")) := by
  refine ⟨by norm_num [spendTotal, sumBy], ?_, ?_⟩ <;>
      norm_num [calculate_roas, seriesDiv, groupSums, sumBy, lookupQ, divOpt, mergeOnDate]
  exact fun h => Option.noConfusion h

/-- C2 (amended): for every campaign to which the date join of Marketing
Revenue and Finance Revenue assigns at least one row pair, and whose total
spend is nonzero, the finance-view ROAS equals the sum of the finance
revenue over the campaign's join pairs divided by the campaign's total
spend in the Spend table. -/
theorem roas_finance_lookup_eq :
    ∀ (df_mkt : List MktRow) (df_fin : List FinRow) (df_spend : List SpendRow) (c : String),
      (∃ p ∈ mergeOnDate df_mkt df_fin, p.1.campaign = c) → spendTotal df_spend c ≠ 0 →
      lookupQ (calculate_roas df_mkt df_fin df_spend).2 c =
        some (some (finJoinedRevenue df_mkt df_fin c / spendTotal df_spend c)) := by
  intro df_mkt df_fin df_spend c hc hs
  obtain ⟨p, hp, hpc⟩ := hc
  have hcm : c ∈ (mergeOnDate df_mkt df_fin).map (fun p => p.1.campaign) :=
    List.mem_map.mpr ⟨p, hp, hpc⟩
  obtain ⟨rs, hrs, hrsc⟩ := sumBy_ne_zero hs
  have hcs : c ∈ df_spend.map (fun r => r.campaign) := List.mem_map.mpr ⟨rs, hrs, hrsc⟩
  have hnum : c ∈ (groupSums (mergeOnDate df_mkt df_fin) (fun p => p.1.campaign)
      (fun p => p.2.revenue)).map Prod.fst := by
    rw [groupSums_keys]; exact List.mem_dedup.mpr hcm
  rw [calculate_roas_snd, lookupQ_seriesDiv (Or.inl hnum), lookupQ_groupSums hcm,
    lookupQ_groupSums hcs]
  rw [spendTotal] at hs
  simp [divOpt, hs, finJoinedRevenue, spendTotal]

/-- C2, witness: the scenario Spend `[(0, A, 100)]`, Marketing Revenue
`[(0, A, U1, 500)]`, Finance Revenue `[(0, 200)]` gives finance ROAS 2 for
campaign A. -/
theorem roas_finance_lookup_eq_witness :
    lookupQ (calculate_roas [⟨0, "A", "U1", 500⟩] [⟨0, 200⟩] [⟨0, "A", 100⟩]).2 "A" =
      some (some (finJoinedRevenue [⟨0, "A", "U1", 500⟩] [⟨0, 200⟩] "A" /
        spendTotal [⟨0, "A", 100⟩] "A")) :=
  roas_finance_lookup_eq [⟨0, "A", "U1", 500⟩] [⟨0, 200⟩] [⟨0, "A", 100⟩] "A"
    ⟨(⟨0, "A", "U1", 500⟩, ⟨0, 200⟩), by norm_num [mergeOnDate], rfl⟩
    (by norm_num [spendTotal, sumBy])

/-! ### Claim C5 -/

/-- C5: whenever both returned ROAS tables carry a finite value for a
campaign, both values were obtained by dividing by the same denominator,
namely the campaign's total spend in the Spend table (which is then
nonzero): multiplying either value by that total recovers its numerator. -/
theorem roas_shared_denominator :
    ∀ (df_mkt : List MktRow) (df_fin : List FinRow) (df_spend : List SpendRow) (c : String)
      (vm vf : ℚ),
      lookupQ (calculate_roas df_mkt df_fin df_spend).1 c = some (some vm) →
      lookupQ (calculate_roas df_mkt df_fin df_spend).2 c = some (some vf) →
      spendTotal df_spend c ≠ 0 ∧ vm * spendTotal df_spend c = mktRevenueTotal df_mkt c ∧
        vf * spendTotal df_spend c = finJoinedRevenue df_mkt df_fin c := by
  intro df_mkt df_fin df_spend c vm vf h1 h2
  rw [calculate_roas_fst] at h1
  rw [calculate_roas_snd] at h2
  have e1 := lookupQ_seriesDiv_some h1
  have e2 := lookupQ_seriesDiv_some h2
  obtain ⟨a1, b1, hx1, hy1, hb1, hv1⟩ := divOpt_eq_some e1.symm
  obtain ⟨a2, b2, hx2, hy2, hb2, hv2⟩ := divOpt_eq_some e2.symm
  have hb1s : b1 = spendTotal df_spend c := lookupQ_groupSums_some hy1
  have hb2s : b2 = spendTotal df_spend c := lookupQ_groupSums_some hy2
  have ha1 : a1 = mktRevenueTotal df_mkt c := lookupQ_groupSums_some hx1
  have ha2 : a2 = finJoinedRevenue df_mkt df_fin c := lookupQ_groupSums_some hx2
  subst hv1 hv2 ha1 ha2
  rw [hb1s] at hb1 ⊢
  rw [hb2s]
  exact ⟨hb1, div_mul_cancel₀ _ hb1, div_mul_cancel₀ _ hb1⟩

/-- C5, witness: on the scenario input both tables carry finite values for
campaign A (5 and 2), and both recover their numerators against the shared
spend total 100. -/
theorem roas_shared_denominator_witness :
    spendTotal [⟨0, "A", 100⟩] "A" ≠ 0 ∧
      5 * spendTotal [⟨0, "A", 100⟩] "A" = mktRevenueTotal [⟨0, "A", "U1", 500⟩] "A" ∧
      2 * spendTotal [⟨0, "A", 100⟩] "A" =
        finJoinedRevenue [⟨0, "A", "U1", 500⟩] [⟨0, 200⟩] "A" :=
  roas_shared_denominator [⟨0, "A", "U1", 500⟩] [⟨0, 200⟩] [⟨0, "A", 100⟩] "A" 5 2
    (by norm_num [calculate_roas, seriesDiv, groupSums, sumBy, lookupQ, divOpt, mergeOnDate])
    (by norm_num [calculate_roas, seriesDiv, groupSums, sumBy, lookupQ, divOpt, mergeOnDate])

/-! ### Claim C6 -/

/-- C6: the CAC table never contains a row with zero customers: a campaign
with no checkout-attributed users is dropped by the join rather than kept
with an infinite CAC. -/
theorem cac_customers_ne_zero :
    ∀ (df_spend : List SpendRow) (df_funnel : List FunnelRow),
      ∀ row ∈ (calculate_cac df_spend df_funnel).1, row.customers ≠ 0 := by
  intro df_spend df_funnel row hrow
  obtain ⟨a, ha, hrow2⟩ := List.mem_flatMap.mp hrow
  have hcust : row.customers = a.2 := by
    rcases hl : lookupQ (groupSums df_spend (fun r => r.campaign) (fun r => r.spend))
        a.1 with _ | s
    · rw [hl] at hrow2; cases hrow2
    · rw [hl] at hrow2
      rcases List.mem_singleton.mp hrow2 with rfl
      rfl
  obtain ⟨c, hc, rfl⟩ := List.mem_map.mp ha
  obtain ⟨p, hp, hpc⟩ := List.mem_map.mp (List.mem_dedup.mp hc)
  have hpin : p ∈ (checkoutRows df_spend df_funnel).filter (fun p => p.2 = c) :=
    List.mem_filter.mpr ⟨hp, by simp [hpc]⟩
  have huser : p.1.user_id ∈
      (((checkoutRows df_spend df_funnel).filter (fun p => p.2 = c)).map
        (fun p => p.1.user_id)).dedup :=
    List.mem_dedup.mpr (List.mem_map_of_mem _ hpin)
  rw [hcust]
  exact fun h0 =>
    List.ne_nil_of_mem huser (List.length_eq_zero.mp h0)

/-- C6, witness: a single checkout event attributed to campaign A yields
the CAC row (A, 100, 1), whose customer count is nonzero. -/
theorem cac_customers_ne_zero_witness :
    (⟨"A", 100, 1⟩ : CacRow).customers ≠ 0 :=
  cac_customers_ne_zero [⟨0, "A", 100⟩] [⟨⟨0, 10⟩, "U1", "checkout", none⟩] ⟨"A", 100, 1⟩
    (by norm_num [calculate_cac, acquisitions, checkoutRows, eventsWithCampaign,
      dailyCampaigns, setDateColumn, groupSums, sumBy, lookupQ])

/-! ### Claim C10 -/

/-- C10: `calculate_cac` updates the funnel table in place: afterwards its
`date` column holds each event's timestamp truncated to a day (added or
overwritten), while every other column — and the spend table, which the
function never assigns to — is unchanged. -/
theorem cac_funnel_date_column_effect :
    ∀ (df_spend : List SpendRow) (df_funnel : List FunnelRow),
      (calculate_cac df_spend df_funnel).2 = df_funnel.map setDateColumn ∧
      ((calculate_cac df_spend df_funnel).2).map (fun r => r.date) =
        df_funnel.map (fun r => some r.timestamp.day) ∧
      ((calculate_cac df_spend df_funnel).2).map (fun r => r.timestamp) =
        df_funnel.map (fun r => r.timestamp) ∧
      ((calculate_cac df_spend df_funnel).2).map (fun r => r.user_id) =
        df_funnel.map (fun r => r.user_id) ∧
      ((calculate_cac df_spend df_funnel).2).map (fun r => r.event_type) =
        df_funnel.map (fun r => r.event_type) := by
  intro df_spend df_funnel
  refine ⟨rfl, ?_, ?_, ?_, ?_⟩ <;>
    simp [calculate_cac, List.map_map, Function.comp_def, setDateColumn]

/-! ### Claim C9 -/

theorem map_setDateColumn_idem (l : List FunnelRow) :
    (l.map setDateColumn).map setDateColumn = l.map setDateColumn := by
  rw [List.map_map]
  rfl

theorem eventsWithCampaign_stable (df_spend : List SpendRow) (df_funnel : List FunnelRow) :
    eventsWithCampaign df_spend (df_funnel.map setDateColumn) =
      eventsWithCampaign df_spend df_funnel := by
  rw [eventsWithCampaign, eventsWithCampaign, map_setDateColumn_idem]

theorem calculate_cac_stable (df_spend : List SpendRow) (df_funnel : List FunnelRow) :
    calculate_cac df_spend (df_funnel.map setDateColumn) =
      calculate_cac df_spend df_funnel := by
  rw [calculate_cac, calculate_cac, acquisitions, acquisitions, checkoutRows, checkoutRows,
    eventsWithCampaign_stable, map_setDateColumn_idem]

/-- C9: rerunning the report pipeline on the tables as they stand after a
first run (the funnel table now carrying the written `date` column)
produces exactly the same report and leaves the tables unchanged: the
second `date`-column assignment overwrites with identical values. -/
theorem runReport_idempotent :
    ∀ t : Tables, runReport ((runReport t).2) = runReport t := by
  intro t
  rcases t with ⟨m, f, s, fu⟩
  show runReport ⟨m, f, s, fu.map setDateColumn⟩ = runReport ⟨m, f, s, fu⟩
  unfold runReport
  simp only [calculate_cac_stable]

/-! ### Claim C8 -/

/-- C8: `generate_reconciliation_report` converts any fault raised while
obtaining the tables into the empty report (`none`, modelling `{}`), with
no partial results; on fault-free input it returns the report holding the
four executive scalars and the four derived tables. -/
theorem report_recovery_boundary :
    (∀ e : String, generate_reconciliation_report (Except.error e) = none) ∧
    (∀ t : Tables, generate_reconciliation_report (Except.ok t) =
      some ⟨⟨(t.df_spend.map (fun r => r.spend)).sum,
          (t.df_fin.map (fun r => r.revenue)).sum,
          (if (t.df_spend.map (fun r => r.spend)).sum = 0 then none
            else some ((t.df_fin.map (fun r => r.revenue)).sum /
              (t.df_spend.map (fun r => r.spend)).sum)),
          (detect_misreporting t.df_mkt t.df_fin t.df_spend).length⟩,
        (calculate_roas t.df_mkt t.df_fin t.df_spend).1,
        (calculate_roas t.df_mkt t.df_fin t.df_spend).2,
        (calculate_cac t.df_spend t.df_funnel).1,
        detect_misreporting t.df_mkt t.df_fin t.df_spend⟩) :=
  ⟨fun _ => rfl, fun _ => rfl⟩

end MarketingAudit
